import Mathlib

/-
Shallow embedding of the forwarding / state-reconciliation core of
src/telegram-watcher/bot_watcher.py.

Modelling conventions:
  - Telegram entities, dialogs and messages are explicit records; an optional
    attribute (accessed in Python via getattr with a default) is an Option
    field, with none covering both "attribute absent" and "attribute is None".
  - Message ids are Nat (Telegram message ids are positive; the watermark
    default is 0).  Chat ids are Int (chat/channel ids can be negative).
  - Timestamps are Int seconds; datetime.isoformat is modelled as toString,
    and timedelta(days=d) as d * 86400 seconds.
  - The backend is external: delivery (send_to_backend) is an oracle
    sendOk : Payload -> Bool, true meaning the POST succeeded (2xx).
  - The HTTP fetch of the important-contact list is external: its outcome is
    an argument of type Except Unit (List RawEntry).  Except.error models an
    exception raised before the accumulation loop starts (the request,
    raise_for_status, response.json(), or data.get on a non-object body);
    Except.ok carries the decoded entries, each of which is either a
    well-formed entry or one whose processing raises inside the loop (a
    non-object entry, or a truthy non-string username), aborting the loop
    with the sets accumulated so far.
  - The persisted state file is passed in as the initial WatcherState; a
    pass result records the final in-memory state, and the saved field holds
    some finalState exactly when the source would call save_state.
  - Each reconciliation pass also returns the list of delivery attempts it
    made, as pairs (state key of the chat, payload); this instruments the
    calls to send_to_backend, which the source performs in this order.
-/

set_option maxRecDepth 4000

/-- Telegram entity (user / chat / channel) as the watcher reads it:
class name (used for the state key), id, username, title, first_name. -/
structure Entity where
  className : String
  id : Option Int
  username : Option String
  title : Option String
  firstName : Option String
deriving Repr, DecidableEq

/-- Telegram message as the watcher reads it: id, raw_text, the secondary
text attribute .message, the media flag, date, sender_id, and the entity
returned by get_sender() during backfill (none when resolution fails). -/
structure Message where
  id : Nat
  rawText : Option String
  message : Option String
  media : Bool
  date : Option Int
  senderId : Option Int
  sender : Option Entity
deriving Repr, DecidableEq

/-- Dialog as yielded by iter_dialogs: entity, unread_count, display name,
and the chat's messages newest-first (what get_messages / iter_messages
would yield; a limit is modelled by List.take). -/
structure Dialog where
  entity : Entity
  unreadCount : Nat
  name : Option String
  messages : List Message
deriving Repr, DecidableEq

/-- Static configuration derived from the environment: WATCH_CHATS
(watchAll true iff the setting is "all", otherwise the parsed id and
lowercased username/title sets), IGNORE_CHAT_IDS, BACKFILL_MESSAGE_LIMIT
and BACKFILL_DAYS. -/
structure Config where
  watchAll : Bool
  watchChatIds : List Int
  watchUsernames : List String
  ignoreChatIds : List Int
  backfillMessageLimit : Int
  backfillDays : Int
deriving Repr, DecidableEq

/-- Notification payload sent to the backend (union of the field sets the
three modes build; a field a mode does not set is none). -/
structure Payload where
  chat_id : Option Int
  chat_title : Option String
  chat_username : Option String
  sender_id : Option Int
  sender_username : Option String
  sender_name : Option String
  message : String
  message_id : Option Nat
  date : Option String
  unread_count : Option Nat
  cron_mode : Option Bool
  has_media : Option Bool
  history : Option Bool
deriving Repr, DecidableEq

/-- One entry of the backend contact-list response: the (already numeric)
telegramChatId / telegram_chat_id value and the telegramUsername /
telegram_username value; none covers a missing, null or unparsable field. -/
structure ContactEntry where
  chatId : Option Int
  username : Option String
deriving Repr, DecidableEq

/-- Inbound live message event (telethon NewMessage), with the chat and
sender already resolved as in the handler. -/
structure Event where
  isPrivate : Bool
  senderIsSelf : Bool
  chat : Option Entity
  sender : Option Entity
  rawText : Option String
  hasMedia : Bool
  id : Nat
  date : Int
deriving Repr, DecidableEq

/-- Python str.strip(): drop leading and trailing whitespace (modelled on
the character list so that the kernel can evaluate it). -/
def pyStrip (s : String) : String :=
  ⟨((s.data.dropWhile Char.isWhitespace).reverse.dropWhile
      Char.isWhitespace).reverse⟩

/-- Python str.lower(), modelled as ASCII lowercasing on the character
list (the watcher only compares ASCII usernames and titles). -/
def pyLower (s : String) : String :=
  ⟨s.data.map Char.toLower⟩

/-- Python `a or b` on optional strings: a if it is a non-empty string,
otherwise b. -/
def pyOrStr (a b : Option String) : Option String :=
  match a with
  | some s => if s != "" then some s else b
  | none => b

/-- should_forward (bot_watcher.py lines 115-129): the watch-scope filter.
True when WATCH_CHATS is "all"; otherwise the chat must have a truthy id in
the watch id set, or a truthy username or title whose lowercase form is in
the watch string set. -/
def should_forward (cfg : Config) (event_chat : Option Entity) : Bool :=
  if cfg.watchAll then true
  else match event_chat with
  | none => false
  | some chat =>
    (match chat.id with
     | some i => i != 0 && cfg.watchChatIds.contains i
     | none => false) ||
    (match chat.username with
     | some u => u != "" && cfg.watchUsernames.contains (pyLower u)
     | none => false) ||
    (match chat.title with
     | some t => t != "" && cfg.watchUsernames.contains (pyLower t)
     | none => false)

/-- Ignore-set check used by all three modes (lines 293-294, 378-379,
511-512): the chat id is not None and is in IGNORE_CHAT_IDS. -/
def isIgnored (cfg : Config) (chat_id : Option Int) : Bool :=
  match chat_id with
  | some i => cfg.ignoreChatIds.contains i
  | none => false

/-- Importance test shared by the cron sweep (lines 296-301) and backfill
(lines 381-387): the chat id is not None and is in important_ids, or else
the username is truthy and its lowercase form is in important_usernames. -/
def matchesContact (imp : List Int × List String) (chat_id : Option Int)
    (username : Option String) : Bool :=
  (match chat_id with
   | some i => imp.1.contains i
   | none => false) ||
  (match username with
   | some u => u != "" && imp.2.contains (pyLower u)
   | none => false)

/-- One decoded element of the contacts array as the accumulation loop
(lines 170-180) processes it.  good is a well-formed entry.  raisingEntry
is an entry whose key lookup raises (a non-object entry), contributing
nothing.  raisingUsername is an entry with a truthy non-string username,
whose username.lower() raises after its chat id (when truthy) was already
added.  Either raising element aborts the loop; the try block's except
then returns the sets accumulated so far. -/
inductive RawEntry where
  | good (e : ContactEntry)
  | raisingEntry
  | raisingUsername (chatId : Option Int)
deriving Repr, DecidableEq

/-- The entry-accumulation loop of fetch_important_contacts (lines 170-180)
over the decoded entries: accumulate every truthy chat id and every truthy
lowercased username, stopping at the first entry whose processing raises
(after adding that entry's truthy chat id when the raise happens at the
username step).  The Python sets are modelled as lists, only membership
being used. -/
def collectContacts : List RawEntry → List Int × List String → List Int × List String
  | [], acc => acc
  | RawEntry.good e :: rest, acc =>
    let ids := match e.chatId with
      | some i => if i != 0 then acc.1 ++ [i] else acc.1
      | none => acc.1
    let names := match e.username with
      | some u => if u != "" then acc.2 ++ [pyLower u] else acc.2
      | none => acc.2
    collectContacts rest (ids, names)
  | RawEntry.raisingEntry :: _, acc => acc
  | RawEntry.raisingUsername cid :: _, acc =>
    (match cid with
     | some i => if i != 0 then acc.1 ++ [i] else acc.1
     | none => acc.1,
     acc.2)

/-- fetch_important_contacts (lines 152-184).  When the request itself
fails (an exception before the accumulation loop) the sets are still empty
and the empty sets are returned; otherwise the loop accumulates entries,
and an exception inside the loop returns whatever was accumulated up to
that point (the except at line 181 swallows it either way). -/
def fetch_important_contacts (result : Except Unit (List RawEntry)) :
    List Int × List String :=
  match result with
  | Except.error _ => ([], [])
  | Except.ok contacts => collectContacts contacts ([], [])

/-- Python repr of an optional int, as str-formatted into the state key. -/
def optIntRepr : Option Int → String
  | none => "None"
  | some i => toString i

/-- get_state_key (lines 187-190): entity class name, a colon, the id. -/
def get_state_key (e : Entity) : String :=
  e.className ++ ":" ++ optIntRepr e.id

/-- The persisted watermark mapping: state-key to last forwarded message id. -/
abbrev WatcherState := List (String × Nat)

/-- state.get(key, 0). -/
def stateGet : WatcherState → String → Nat
  | [], _ => 0
  | (k', v) :: rest, k => if k = k' then v else stateGet rest k

/-- state[key] = v. -/
def stateSet : WatcherState → String → Nat → WatcherState
  | [], k, v => [(k, v)]
  | (k', v') :: rest, k, v =>
    if k' = k then (k, v) :: rest else (k', v') :: stateSet rest k v

/-- extract_message_text (lines 193-203): trimmed raw text if non-empty,
else the trimmed secondary text attribute if truthy and non-empty after
trimming, else a media placeholder, else a no-content placeholder. -/
def extract_message_text (m : Message) : String :=
  let text := pyStrip (m.rawText.getD "")
  if text != "" then text
  else
    let text2 := match m.message with
      | some s => if s != "" then pyStrip s else ""
      | none => ""
    if text2 != "" then text2
    else if m.media then "[Media message]"
    else "[No text content]"

/-- Payload built for one message by the cron sweep (lines 318-330). -/
def cronPayload (dialog : Dialog) (chat_id : Option Int)
    (username : Option String) (m : Message) : Payload :=
  { chat_id := chat_id
  , chat_title := pyOrStr dialog.name dialog.entity.title
  , chat_username := username
  , sender_id := match m.senderId with
      | some i => some i
      | none => chat_id
  , sender_username := username
  , sender_name := pyOrStr dialog.name
      (pyOrStr (some (dialog.entity.firstName.getD ""))
        (some (dialog.entity.title.getD "")))
  , message := extract_message_text m
  , message_id := some m.id
  , date := m.date.map toString
  , unread_count := some dialog.unreadCount
  , cron_mode := some true
  , has_media := none
  , history := none }

/-- Per-chat delivery loop of the cron sweep (lines 313-341), run over the
fetched messages oldest-first: skip ids at or below the running watermark,
otherwise build the payload and attempt delivery; on success raise the
watermark to max(current, id) and count the notification.  Returns (final
watermark, notifications sent, payloads attempted in order). -/
def cronLoop (sendOk : Payload → Bool) (build : Message → Payload) :
    List Message → Nat → Nat × Nat × List Payload
  | [], lf => (lf, 0, [])
  | m :: rest, lf =>
    if m.id ≤ lf then cronLoop sendOk build rest lf
    else
      let p := build m
      if sendOk p then
        let r := cronLoop sendOk build rest (max lf m.id)
        (r.1, r.2.1 + 1, p :: r.2.2)
      else
        let r := cronLoop sendOk build rest lf
        (r.1, r.2.1, p :: r.2.2)

/-- Per-dialog body of the cron sweep (lines 284-344): skip dialogs with no
unread messages, ignored chats, chats matching no important contact, and
chats out of watch scope; otherwise fetch max(unread_count, 1) most recent
messages, process them oldest-first against the stored watermark, and write
the raised watermark back into the in-memory state only when it strictly
exceeds the stored value.  The accumulator is (state, notifications sent,
tagged delivery attempts). -/
def cronDialogStep (cfg : Config) (imp : List Int × List String)
    (sendOk : Payload → Bool)
    (acc : WatcherState × Nat × List (String × Payload)) (d : Dialog) :
    WatcherState × Nat × List (String × Payload) :=
  if d.unreadCount = 0 then acc
  else if isIgnored cfg d.entity.id then acc
  else if !(matchesContact imp d.entity.id d.entity.username) then acc
  else if !(should_forward cfg (some d.entity)) then acc
  else
    let key := get_state_key d.entity
    let r := cronLoop sendOk (cronPayload d d.entity.id d.entity.username)
      ((d.messages.take (max d.unreadCount 1)).reverse) (stateGet acc.1 key)
    ((if stateGet acc.1 key < r.1 then stateSet acc.1 key r.1 else acc.1),
     acc.2.1 + r.2.1,
     acc.2.2 ++ r.2.2.map (fun p => (key, p)))

/-- Result of one cron-sweep pass: final in-memory state, notifications
sent, tagged delivery attempts, and the state save_state wrote (none when
the source would not write the file). -/
structure CronResult where
  state : WatcherState
  sent : Nat
  attempts : List (String × Payload)
  saved : Option WatcherState
deriving Repr, DecidableEq

/-- process_unread_important_messages (lines 275-349): fetch the important
contacts; when both sets are empty, short-circuit with zero work; otherwise
fold the per-dialog body over all dialogs and persist the state once iff at
least one notification was sent. -/
def process_unread_important_messages (cfg : Config)
    (fetchResult : Except Unit (List RawEntry))
    (initialState : WatcherState) (dialogs : List Dialog)
    (sendOk : Payload → Bool) : CronResult :=
  let imp := fetch_important_contacts fetchResult
  if imp.1.isEmpty && imp.2.isEmpty then
    { state := initialState, sent := 0, attempts := [], saved := none }
  else
    let r := dialogs.foldl (cronDialogStep cfg imp sendOk) (initialState, 0, [])
    { state := r.1, sent := r.2.1, attempts := r.2.2
    , saved := if r.2.1 > 0 then some r.1 else none }

/-- Backfill message-count limit (line 362): the configured limit when
positive, otherwise unbounded. -/
def backfillLimit (cfg : Config) : Option Nat :=
  if cfg.backfillMessageLimit > 0 then some cfg.backfillMessageLimit.toNat
  else none

/-- Backfill date cutoff (lines 363-365): now minus BACKFILL_DAYS days when
the day count is positive, otherwise none. -/
def backfillCutoff (cfg : Config) (now : Int) : Option Int :=
  if cfg.backfillDays > 0 then some (now - cfg.backfillDays * 86400) else none

/-- iter_messages with an optional limit over a newest-first list. -/
def iterLimited (limit : Option Nat) (msgs : List Message) : List Message :=
  match limit with
  | some l => msgs.take l
  | none => msgs

/-- The backfill collection walk (lines 395-412) over messages newest-first:
stop (break, not skip) at the first message whose id is at or below the
current watermark, or whose date is older than the cutoff when both are
present; collect every message walked past. -/
def backfillCollect (cutoff : Option Int) (lf : Nat) :
    List Message → List Message
  | [] => []
  | m :: rest =>
    if m.id ≤ lf then []
    else
      match cutoff, m.date with
      | some c, some d =>
        if d < c then []
        else m :: backfillCollect cutoff lf rest
      | _, _ => m :: backfillCollect cutoff lf rest

/-- Payload built for one message by the backfill pass (lines 426-443),
including the sender resolved by get_sender (sender none models a failed
resolution, degraded exactly as the source degrades it). -/
def backfillPayload (dialog : Dialog) (chat_id : Option Int)
    (username : Option String) (m : Message) : Payload :=
  { chat_id := chat_id
  , chat_title := pyOrStr dialog.name dialog.entity.title
  , chat_username := username
  , sender_id := match m.sender with
      | some s => s.id
      | none => match m.senderId with
        | some i => some i
        | none => chat_id
  , sender_username := match m.sender with
      | some s => s.username
      | none => none
  , sender_name := pyOrStr (m.sender.bind Entity.firstName)
      (pyOrStr (m.sender.bind Entity.title) dialog.name)
  , message := extract_message_text m
  , message_id := some m.id
  , date := m.date.map toString
  , unread_count := none
  , cron_mode := none
  , has_media := some m.media
  , history := some true }

/-- Delivery loop of the backfill pass (lines 424-449), run over the
collected messages oldest-first: every collected message is attempted (the
collection walk already enforced the watermark); on success the watermark
is raised to max(current, id). -/
def backfillLoop (sendOk : Payload → Bool) (build : Message → Payload) :
    List Message → Nat → Nat × Nat × List Payload
  | [], lf => (lf, 0, [])
  | m :: rest, lf =>
    let p := build m
    if sendOk p then
      let r := backfillLoop sendOk build rest (max lf m.id)
      (r.1, r.2.1 + 1, p :: r.2.2)
    else
      let r := backfillLoop sendOk build rest lf
      (r.1, r.2.1, p :: r.2.2)

/-- Per-dialog body of the backfill pass (lines 373-453): skip ignored
chats and chats matching no important contact (the watch-scope filter is
not consulted here); collect messages newest-first, and when any were
collected deliver them oldest-first, then write the raised watermark back
only when it strictly exceeds the stored value, counting the key as
updated.  The accumulator is (state, total forwarded, updated keys, tagged
delivery attempts). -/
def backfillDialogStep (cfg : Config) (imp : List Int × List String)
    (sendOk : Payload → Bool) (cutoff : Option Int) (limit : Option Nat)
    (acc : WatcherState × Nat × Nat × List (String × Payload)) (d : Dialog) :
    WatcherState × Nat × Nat × List (String × Payload) :=
  if isIgnored cfg d.entity.id then acc
  else if !(matchesContact imp d.entity.id d.entity.username) then acc
  else
    let key := get_state_key d.entity
    let collected := backfillCollect cutoff (stateGet acc.1 key)
      (iterLimited limit d.messages)
    if collected.isEmpty then acc
    else
      let r := backfillLoop sendOk
        (backfillPayload d d.entity.id d.entity.username)
        collected.reverse (stateGet acc.1 key)
      if stateGet acc.1 key < r.1 then
        (stateSet acc.1 key r.1, acc.2.1 + r.2.1, acc.2.2.1 + 1,
         acc.2.2.2 ++ r.2.2.map (fun p => (key, p)))
      else
        (acc.1, acc.2.1 + r.2.1, acc.2.2.1,
         acc.2.2.2 ++ r.2.2.map (fun p => (key, p)))

/-- Result of one backfill pass: final in-memory state, messages forwarded,
state keys updated, tagged delivery attempts, and the state written by
save_state (none when the source would not write the file). -/
structure BackfillResult where
  state : WatcherState
  total : Nat
  updatedKeys : Nat
  attempts : List (String × Payload)
  saved : Option WatcherState
deriving Repr, DecidableEq

/-- backfill_history (lines 352-464): fetch the important contacts; when
both sets are empty, short-circuit with zero work; otherwise fold the
per-dialog body over all dialogs and persist the state once iff at least
one key was updated. -/
def backfill_history (cfg : Config) (now : Int)
    (fetchResult : Except Unit (List RawEntry))
    (initialState : WatcherState) (dialogs : List Dialog)
    (sendOk : Payload → Bool) : BackfillResult :=
  let imp := fetch_important_contacts fetchResult
  if imp.1.isEmpty && imp.2.isEmpty then
    { state := initialState, total := 0, updatedKeys := 0, attempts := []
    , saved := none }
  else
    let cutoff := backfillCutoff cfg now
    let limit := backfillLimit cfg
    let r := dialogs.foldl (backfillDialogStep cfg imp sendOk cutoff limit)
      (initialState, 0, 0, [])
    { state := r.1, total := r.2.1, updatedKeys := r.2.2.1
    , attempts := r.2.2.2
    , saved := if r.2.2.1 > 0 then some r.1 else none }

/-- Live-mode event handler (lines 502-535): drop self-sent private
messages, then ignored chats, then chats out of watch scope, then events
with empty raw text and no media; otherwise build the payload (the message
field is the raw text, not extract_message_text) and attempt delivery.
Returns the payload whose delivery is attempted, or none when the event is
dropped. -/
def handler (cfg : Config) (ev : Event) : Option Payload :=
  if ev.isPrivate && ev.senderIsSelf then none
  else if isIgnored cfg (ev.chat.bind Entity.id) then none
  else if !(should_forward cfg ev.chat) then none
  else if (ev.rawText.getD "" == "") && !ev.hasMedia then none
  else some
    { chat_id := ev.chat.bind Entity.id
    , chat_title := ev.chat.bind Entity.title
    , chat_username := ev.chat.bind Entity.username
    , sender_id := ev.sender.bind Entity.id
    , sender_username := ev.sender.bind Entity.username
    , sender_name := some ((ev.sender.bind Entity.firstName).getD "")
    , message := ev.rawText.getD ""
    , message_id := some ev.id
    , date := some (toString ev.date)
    , unread_count := none
    , cron_mode := none
    , has_media := some ev.hasMedia
    , history := none }

/-- Invariant tying a cron-sweep accumulator to the stored state loaded at
pass start: per-key watermarks never decrease, and every recorded delivery
attempt for a key carries a message id strictly above that key's stored
watermark and a non-empty message text. -/
def cronAccInv (st : WatcherState)
    (acc : WatcherState × Nat × List (String × Payload)) : Prop :=
  (∀ k, stateGet st k ≤ stateGet acc.1 k) ∧
  ∀ k p, (k, p) ∈ acc.2.2 →
    (∀ i, p.message_id = some i → stateGet st k < i) ∧ p.message ≠ ""

/-- Invariant tying a backfill accumulator to the stored state loaded at
pass start (same content as the cron invariant). -/
def backfillAccInv (st : WatcherState)
    (acc : WatcherState × Nat × Nat × List (String × Payload)) : Prop :=
  (∀ k, stateGet st k ≤ stateGet acc.1 k) ∧
  ∀ k p, (k, p) ∈ acc.2.2.2 →
    (∀ i, p.message_id = some i → stateGet st k < i) ∧ p.message ≠ ""

/-- Example user entity with id 7 (state key "User:7"). -/
def exEntity : Entity :=
  { className := "User", id := some 7, username := none, title := none, firstName := none }

/-- Example text message with a given id. -/
def exMsg (i : Nat) : Message :=
  { id := i, rawText := some "hello", message := none, media := false, date := some 1000, senderId := some 7, sender := none }

/-- Example text message with a given id and date. -/
def exMsgAt (i : Nat) (d : Int) : Message :=
  { id := i, rawText := some "hi", message := none, media := false, date := some d, senderId := some 7, sender := none }

/-- Example dialog for chat 7 with three unread messages, newest-first. -/
def exDialog : Dialog :=
  { entity := exEntity, unreadCount := 3, name := some "Alice", messages := [exMsg 3, exMsg 2, exMsg 1] }

/-- Watch-everything configuration with nothing ignored. -/
def cfgAll : Config :=
  { watchAll := true, watchChatIds := [], watchUsernames := [], ignoreChatIds := [], backfillMessageLimit := 500, backfillDays := 0 }

/-- Explicit watch scope listing only chat id 999 (chat 7 is out of scope). -/
def cfgScoped : Config :=
  { watchAll := false, watchChatIds := [999], watchUsernames := [], ignoreChatIds := [], backfillMessageLimit := 500, backfillDays := 0 }

/-- Configuration ignoring chat id 7. -/
def cfgIgnore7 : Config :=
  { watchAll := true, watchChatIds := [], watchUsernames := [], ignoreChatIds := [7], backfillMessageLimit := 500, backfillDays := 0 }

/-- Watch-everything configuration with a three-day backfill cutoff. -/
def cfgDays3 : Config :=
  { watchAll := true, watchChatIds := [], watchUsernames := [], ignoreChatIds := [], backfillMessageLimit := 500, backfillDays := 3 }

/-- Contact-list fetch that succeeds and marks chat id 7 important. -/
def exFetch : Except Unit (List RawEntry) :=
  Except.ok [RawEntry.good { chatId := some 7, username := none }]

/-- Contact-list fetch whose accumulation loop raises on its second entry,
after the first entry already marked chat id 7 important: the source's
except clause then returns the partial, non-empty sets. -/
def exFetchPartial : Except Unit (List RawEntry) :=
  Except.ok [RawEntry.good { chatId := some 7, username := none },
    RawEntry.raisingEntry]

/-- Delivery oracle that always succeeds. -/
def sendAll : Payload → Bool := fun _ => true

/-- Delivery oracle that always fails. -/
def sendNone : Payload → Bool := fun _ => false

/-- Delivery oracle failing exactly on message id 2. -/
def sendFail2 : Payload → Bool := fun p => p.message_id != some 2

/-- Cron pass over exDialog in which delivery of message id 2 fails. -/
def exPass1 : CronResult :=
  process_unread_important_messages cfgAll exFetch [] [exDialog] sendFail2

/-- Second cron pass over the same unchanged dialog state, starting from
the state the first pass produced. -/
def exPass2 : CronResult :=
  process_unread_important_messages cfgAll exFetch exPass1.state [exDialog] sendFail2

/-- Cron pass over exDialog in which every delivery succeeds. -/
def exPassOk : CronResult :=
  process_unread_important_messages cfgAll exFetch [] [exDialog] sendAll

/-- Dialog for the backfill cutoff scenario: ids/dates 90/"today",
89/"today", 88/"4 days ago" newest-first, with now = 1000000 and a day
being 86400 seconds (1000000 - 4 * 86400 = 654400). -/
def exDialogOld : Dialog :=
  { entity := exEntity, unreadCount := 0, name := some "Alice", messages := [exMsgAt 90 1000000, exMsgAt 89 1000000, exMsgAt 88 654400] }

/-- Backfill pass over exDialogOld with a 3-day cutoff at now = 1000000. -/
def exBackfillCut : BackfillResult :=
  backfill_history cfgDays3 1000000 exFetch [] [exDialogOld] sendAll

/-- Backfill pass over exDialog under the explicit watch scope that does
not contain chat 7. -/
def exBackfillScoped : BackfillResult :=
  backfill_history cfgScoped 0 exFetch [] [exDialog] sendAll

/-- Live event from chat 42 with text and no media. -/
def exEvent : Event :=
  { isPrivate := false, senderIsSelf := false, chat := some { className := "User", id := some 42, username := none, title := none, firstName := none }, sender := some { className := "User", id := some 43, username := none, title := none, firstName := some "Bob" }, rawText := some "hi", hasMedia := false, id := 10, date := 0 }

/-- Live event from chat 42 with empty raw text and a media attachment. -/
def exEventMedia : Event :=
  { exEvent with rawText := some "", hasMedia := true }

/-- Message with empty raw text and a media attachment. -/
def exMediaMsg : Message :=
  { id := 1, rawText := some "", message := none, media := true, date := none, senderId := none, sender := none }

/-- Payload the cron sweep builds for exMsg 1 in exDialog. -/
def exPayload1 : Payload :=
  cronPayload exDialog (some 7) none (exMsg 1)

/-- Text extraction never returns the empty string. -/
theorem extract_message_text_ne (m : Message) : extract_message_text m ≠ "" := by
  simp only [extract_message_text]
  split
  · next h => simpa [bne_iff_ne] using h
  · split
    · next h => simpa [bne_iff_ne] using h
    · split <;> decide

/-- Text extraction returns the media placeholder when both text sources
trim to the empty string and the message carries media. -/
theorem extract_message_text_media (m : Message)
    (h1 : pyStrip (m.rawText.getD "") = "")
    (h2 : pyStrip (m.message.getD "") = "")
    (h3 : m.media = true) :
    extract_message_text m = "[Media message]" := by
  simp only [extract_message_text, h1, h3]
  cases hm : m.message with
  | none => simp
  | some s =>
    rw [hm] at h2
    simp only [Option.getD] at h2
    by_cases hs : s = ""
    · simp [hs]
    · simp [hs, h2, bne_iff_ne]

/-- Reading a key after writing: the written key returns the new value,
any other key is unchanged. -/
theorem stateGet_stateSet (st : WatcherState) (k k' : String) (v : Nat) :
    stateGet (stateSet st k v) k' = if k' = k then v else stateGet st k' := by
  induction st with
  | nil =>
    simp only [stateSet, stateGet]
  | cons hd tl ih =>
    obtain ⟨a, b⟩ := hd
    by_cases ha : a = k
    · subst ha
      simp only [stateSet, if_pos rfl, stateGet]
      by_cases hk : k' = a <;> simp [hk]
    · simp only [stateSet, if_neg ha, stateGet, ih]
      by_cases hk : k' = a
      · subst hk
        simp [ha]
      · simp [hk]

/-- The per-chat cron loop never lowers the watermark. -/
theorem cronLoop_le (sendOk : Payload → Bool) (build : Message → Payload) :
    ∀ (msgs : List Message) (lf : Nat), lf ≤ (cronLoop sendOk build msgs lf).1 := by
  intro msgs
  induction msgs with
  | nil => intro lf; simp [cronLoop]
  | cons m rest ih =>
    intro lf
    by_cases h : m.id ≤ lf
    · simpa [cronLoop, h] using ih lf
    · by_cases hs : sendOk (build m) = true
      · have h2 := ih (max lf m.id)
        simp only [cronLoop, if_neg h, hs, if_pos]
        exact le_trans (le_max_left _ _) h2
      · have h2 := ih lf
        simp only [cronLoop, if_neg h, hs]
        simpa using h2

/-- Every payload the per-chat cron loop attempts comes from a message of
the processed list whose id is strictly above the starting watermark. -/
theorem cronLoop_mem (sendOk : Payload → Bool) (build : Message → Payload) :
    ∀ (msgs : List Message) (lf : Nat) (p : Payload),
      p ∈ (cronLoop sendOk build msgs lf).2.2 →
      ∃ m, m ∈ msgs ∧ p = build m ∧ lf < m.id := by
  intro msgs
  induction msgs with
  | nil => intro lf p hp; simp [cronLoop] at hp
  | cons m rest ih =>
    intro lf p hp
    by_cases h : m.id ≤ lf
    · simp only [cronLoop, if_pos h] at hp
      obtain ⟨m', hm', hpm', hlt'⟩ := ih lf p hp
      exact ⟨m', List.mem_cons_of_mem _ hm', hpm', hlt'⟩
    · by_cases hs : sendOk (build m) = true
      · simp only [cronLoop, if_neg h, hs, if_pos, List.mem_cons] at hp
        rcases hp with hp | hp
        · exact ⟨m, List.mem_cons_self _ _, hp, Nat.lt_of_not_le h⟩
        · obtain ⟨m', hm', hpm', hlt'⟩ := ih (max lf m.id) p hp
          exact ⟨m', List.mem_cons_of_mem _ hm', hpm',
            lt_of_le_of_lt (le_max_left _ _) hlt'⟩
      · simp only [cronLoop, if_neg h, hs, Bool.false_eq_true, if_false,
          List.mem_cons] at hp
        rcases hp with hp | hp
        · exact ⟨m, List.mem_cons_self _ _, hp, Nat.lt_of_not_le h⟩
        · obtain ⟨m', hm', hpm', hlt'⟩ := ih lf p hp
          exact ⟨m', List.mem_cons_of_mem _ hm', hpm', hlt'⟩

/-- The attempt list of the per-chat cron loop is a sublist of the
processed messages' payloads, in processing order. -/
theorem cronLoop_sublist (sendOk : Payload → Bool) (build : Message → Payload) :
    ∀ (msgs : List Message) (lf : Nat),
      List.Sublist (cronLoop sendOk build msgs lf).2.2 (msgs.map build) := by
  intro msgs
  induction msgs with
  | nil => intro lf; simp [cronLoop]
  | cons m rest ih =>
    intro lf
    by_cases h : m.id ≤ lf
    · simp only [cronLoop, if_pos h, List.map_cons]
      exact (ih lf).cons _
    · by_cases hs : sendOk (build m) = true
      · simp only [cronLoop, if_neg h, hs, if_pos, List.map_cons]
        exact (ih (max lf m.id)).cons₂ _
      · simp only [cronLoop, if_neg h, hs, Bool.false_eq_true, if_false,
          List.map_cons]
        exact (ih lf).cons₂ _

/-- The final watermark of the per-chat cron loop is the fold that raises
the watermark to max(current, id) exactly on attempted-and-successful
messages. -/
theorem cronLoop_watermark (sendOk : Payload → Bool) (build : Message → Payload) :
    ∀ (msgs : List Message) (lf : Nat),
      (cronLoop sendOk build msgs lf).1 =
        msgs.foldl
          (fun w m => if w < m.id ∧ sendOk (build m) = true then max w m.id else w)
          lf := by
  intro msgs
  induction msgs with
  | nil => intro lf; simp [cronLoop]
  | cons m rest ih =>
    intro lf
    by_cases h : m.id ≤ lf
    · have hc : ¬(lf < m.id ∧ sendOk (build m) = true) := by
        intro hc; exact absurd hc.1 (Nat.not_lt.mpr h)
      simp only [cronLoop, if_pos h, List.foldl_cons, if_neg hc]
      exact ih lf
    · by_cases hs : sendOk (build m) = true
      · have hw : lf < m.id := Nat.lt_of_not_le h
        simp only [cronLoop, if_neg h, hs, if_pos, List.foldl_cons, and_true, hw,
          if_true]
        exact ih (max lf m.id)
      · simp only [cronLoop, if_neg h, hs, Bool.false_eq_true, if_false,
          List.foldl_cons, and_false]
        exact ih lf

/-- Any message whose id is strictly above the final watermark of a
per-chat cron loop run had its delivery fail (if it had succeeded the
watermark would have reached its id). -/
theorem cronLoop_final_fail (sendOk : Payload → Bool) (build : Message → Payload) :
    ∀ (msgs : List Message) (lf : Nat) (m : Message), m ∈ msgs →
      (cronLoop sendOk build msgs lf).1 < m.id → sendOk (build m) = false := by
  intro msgs
  induction msgs with
  | nil => intro lf m hm; simp at hm
  | cons m' rest ih =>
    intro lf m hm hlt
    rcases List.mem_cons.mp hm with hm | hm
    · subst hm
      by_cases h : m.id ≤ lf
      · exfalso
        have := cronLoop_le sendOk build (m :: rest) lf
        exact absurd (le_trans h (le_trans this (Nat.le_of_lt hlt))) (by omega)
      · by_cases hs : sendOk (build m) = true
        · exfalso
          simp only [cronLoop, if_neg h, hs, if_pos] at hlt
          have h2 := cronLoop_le sendOk build rest (max lf m.id)
          have h3 : m.id ≤ (cronLoop sendOk build rest (max lf m.id)).1 :=
            le_trans (le_max_right _ _) h2
          omega
        · exact Bool.not_eq_true _ |>.mp hs
    · by_cases h : m'.id ≤ lf
      · simp only [cronLoop, if_pos h] at hlt
        exact ih lf m hm hlt
      · by_cases hs : sendOk (build m') = true
        · simp only [cronLoop, if_neg h, hs, if_pos] at hlt
          exact ih (max lf m'.id) m hm hlt
        · simp only [cronLoop, if_neg h, hs, Bool.false_eq_true, if_false] at hlt
          exact ih lf m hm hlt

/-- When every message above the watermark fails to deliver, the per-chat
cron loop leaves the watermark unchanged, sends nothing, and attempts
exactly the messages above the watermark, in order. -/
theorem cronLoop_stable (sendOk : Payload → Bool) (build : Message → Payload) :
    ∀ (msgs : List Message) (w : Nat),
      (∀ m, m ∈ msgs → w < m.id → sendOk (build m) = false) →
      cronLoop sendOk build msgs w =
        (w, 0, (msgs.filter (fun m => decide (w < m.id))).map build) := by
  intro msgs
  induction msgs with
  | nil => intro w hall; simp [cronLoop]
  | cons m rest ih =>
    intro w hall
    by_cases h : m.id ≤ w
    · have hf : decide (w < m.id) = false := by simp; omega
      simp only [cronLoop, if_pos h, List.filter_cons, hf, Bool.false_eq_true,
        if_false]
      exact ih w (fun m' hm' => hall m' (List.mem_cons_of_mem _ hm'))
    · have hw : w < m.id := Nat.lt_of_not_le h
      have hs : sendOk (build m) = false := hall m (List.mem_cons_self _ _) hw
      have ht : decide (w < m.id) = true := by simpa using hw
      simp only [cronLoop, if_neg h, hs, Bool.false_eq_true, if_false,
        List.filter_cons, ht, if_pos, List.map_cons]
      rw [ih w (fun m' hm' => hall m' (List.mem_cons_of_mem _ hm'))]

/-- The backfill delivery loop never lowers the watermark. -/
theorem backfillLoop_le (sendOk : Payload → Bool) (build : Message → Payload) :
    ∀ (msgs : List Message) (lf : Nat), lf ≤ (backfillLoop sendOk build msgs lf).1 := by
  intro msgs
  induction msgs with
  | nil => intro lf; simp [backfillLoop]
  | cons m rest ih =>
    intro lf
    by_cases hs : sendOk (build m) = true
    · have h2 := ih (max lf m.id)
      simp only [backfillLoop, hs, if_pos]
      exact le_trans (le_max_left _ _) h2
    · have h2 := ih lf
      simp only [backfillLoop, hs, Bool.false_eq_true, if_false]
      exact h2

/-- The backfill delivery loop attempts every collected message, in order. -/
theorem backfillLoop_attempts (sendOk : Payload → Bool) (build : Message → Payload) :
    ∀ (msgs : List Message) (lf : Nat),
      (backfillLoop sendOk build msgs lf).2.2 = msgs.map build := by
  intro msgs
  induction msgs with
  | nil => intro lf; simp [backfillLoop]
  | cons m rest ih =>
    intro lf
    by_cases hs : sendOk (build m) = true
    · simp only [backfillLoop, hs, if_pos, List.map_cons, ih]
    · simp only [backfillLoop, hs, Bool.false_eq_true, if_false, List.map_cons, ih]

/-- The final watermark of the backfill delivery loop is the fold that
raises the watermark to max(current, id) exactly on successful messages. -/
theorem backfillLoop_watermark (sendOk : Payload → Bool) (build : Message → Payload) :
    ∀ (msgs : List Message) (lf : Nat),
      (backfillLoop sendOk build msgs lf).1 =
        msgs.foldl
          (fun w m => if sendOk (build m) = true then max w m.id else w) lf := by
  intro msgs
  induction msgs with
  | nil => intro lf; simp [backfillLoop]
  | cons m rest ih =>
    intro lf
    by_cases hs : sendOk (build m) = true
    · simp only [backfillLoop, hs, if_pos, List.foldl_cons, if_true]
      exact ih (max lf m.id)
    · simp only [backfillLoop, hs, Bool.false_eq_true, if_false, List.foldl_cons]
      exact ih lf

/-- Every message the backfill walk collects has an id strictly above the
watermark the walk started from. -/
theorem backfillCollect_mem (cutoff : Option Int) (lf : Nat) :
    ∀ (msgs : List Message) (m : Message),
      m ∈ backfillCollect cutoff lf msgs → lf < m.id := by
  rcases cutoff with _ | c
  · intro msgs
    induction msgs with
    | nil => intro m hm; simp [backfillCollect] at hm
    | cons m' rest ih =>
      intro m hm
      by_cases h : m'.id ≤ lf
      · simp [backfillCollect, if_pos h] at hm
      · simp only [backfillCollect, if_neg h, List.mem_cons] at hm
        rcases hm with hm | hm
        · subst hm; exact Nat.lt_of_not_le h
        · exact ih m hm
  · intro msgs
    induction msgs with
    | nil => intro m hm; simp [backfillCollect] at hm
    | cons m' rest ih =>
      intro m hm
      by_cases h : m'.id ≤ lf
      · simp [backfillCollect, if_pos h] at hm
      · simp only [backfillCollect, if_neg h] at hm
        rcases hd : m'.date with _ | d
        · rw [hd] at hm
          simp only [List.mem_cons] at hm
          rcases hm with hm | hm
          · subst hm; exact Nat.lt_of_not_le h
          · exact ih m hm
        · rw [hd] at hm
          by_cases hdc : d < c
          · simp [if_pos hdc] at hm
          · simp only [if_neg hdc, List.mem_cons] at hm
            rcases hm with hm | hm
            · subst hm; exact Nat.lt_of_not_le h
            · exact ih m hm

/-- The backfill walk stops early rather than skipping: what it collects
is an initial segment of the walked list. -/
theorem backfillCollect_take (cutoff : Option Int) (lf : Nat) :
    ∀ (msgs : List Message),
      backfillCollect cutoff lf msgs =
        msgs.take (backfillCollect cutoff lf msgs).length := by
  rcases cutoff with _ | c
  · intro msgs
    induction msgs with
    | nil => simp [backfillCollect]
    | cons m rest ih =>
      by_cases h : m.id ≤ lf
      · simp [backfillCollect, if_pos h]
      · simp only [backfillCollect, if_neg h, List.length_cons,
          List.take_succ_cons]
        exact congrArg _ ih
  · intro msgs
    induction msgs with
    | nil => simp [backfillCollect]
    | cons m rest ih =>
      by_cases h : m.id ≤ lf
      · simp [backfillCollect, if_pos h]
      · simp only [backfillCollect, if_neg h]
        rcases hd : m.date with _ | d
        · simp only [List.length_cons, List.take_succ_cons]
          exact congrArg _ ih
        · by_cases hdc : d < c
          · simp [if_pos hdc]
          · simp only [if_neg hdc, List.length_cons, List.take_succ_cons]
            exact congrArg _ ih

/-- No message older than the cutoff survives the backfill walk: a
collected message carrying a date is at or after the cutoff. -/
theorem backfillCollect_cutoff (c : Int) (lf : Nat) :
    ∀ (msgs : List Message) (m : Message) (d : Int),
      m ∈ backfillCollect (some c) lf msgs → m.date = some d → c ≤ d := by
  intro msgs
  induction msgs with
  | nil => intro m d hm; simp [backfillCollect] at hm
  | cons m' rest ih =>
    intro m d hm hd
    by_cases h : m'.id ≤ lf
    · simp [backfillCollect, if_pos h] at hm
    · simp only [backfillCollect, if_neg h] at hm
      rcases hd' : m'.date with _ | d'
      · rw [hd'] at hm
        simp only [List.mem_cons] at hm
        rcases hm with hm | hm
        · subst hm; rw [hd] at hd'; exact absurd hd' (by simp)
        · exact ih m d hm hd
      · rw [hd'] at hm
        by_cases hdc : d' < c
        · simp [if_pos hdc] at hm
        · simp only [if_neg hdc, List.mem_cons] at hm
          rcases hm with hm | hm
          · subst hm
            rw [hd'] at hd
            cases hd
            exact Int.not_lt.mp hdc
          · exact ih m d hm hd

/-- iter_messages with a limit yields a sublist of the chat's messages. -/
theorem iterLimited_sublist (limit : Option Nat) (msgs : List Message) :
    List.Sublist (iterLimited limit msgs) msgs := by
  cases limit with
  | none => exact List.Sublist.refl _
  | some l => exact List.take_sublist _ _

/-- The backfill walk collects a sublist of the walked list. -/
theorem backfillCollect_sublist (cutoff : Option Int) (lf : Nat)
    (msgs : List Message) :
    List.Sublist (backfillCollect cutoff lf msgs) msgs := by
  rw [backfillCollect_take cutoff lf msgs]
  exact List.take_sublist _ _

/-- One cron-sweep dialog step preserves the pass invariant. -/
theorem cronDialogStep_inv (cfg : Config) (imp : List Int × List String)
    (sendOk : Payload → Bool) (st : WatcherState)
    (acc : WatcherState × Nat × List (String × Payload)) (d : Dialog)
    (h : cronAccInv st acc) :
    cronAccInv st (cronDialogStep cfg imp sendOk acc d) := by
  by_cases h1 : d.unreadCount = 0
  · simpa [cronDialogStep, h1] using h
  by_cases h2 : isIgnored cfg d.entity.id = true
  · simpa [cronDialogStep, h1, h2] using h
  by_cases h3 : matchesContact imp d.entity.id d.entity.username = true
  swap
  · simpa [cronDialogStep, h1, h2, h3] using h
  by_cases h4 : should_forward cfg (some d.entity) = true
  swap
  · simpa [cronDialogStep, h1, h2, h3, h4] using h
  simp only [cronDialogStep, h1, h2, h3, h4, Bool.not_true, Bool.false_eq_true,
    if_false, if_neg, ite_false, Bool.not_eq_true, ite_true, if_true]
  constructor
  · intro k
    split
    · next hup =>
      rw [stateGet_stateSet]
      split
      · next hk => subst hk; exact le_trans (h.1 _) (le_of_lt hup)
      · exact h.1 k
    · exact h.1 k
  · intro k p hp
    simp only [List.mem_append, List.mem_map] at hp
    rcases hp with hp | ⟨q, hq, hqe⟩
    · exact h.2 k p hp
    · obtain ⟨hk, hpq⟩ : k = get_state_key d.entity ∧ q = p := by
        constructor
        · exact (Prod.mk.injEq _ _ _ _ ▸ hqe).1.symm
        · exact (Prod.mk.injEq _ _ _ _ ▸ hqe).2
      subst hk
      subst hpq
      obtain ⟨m, hm, hpm, hlt⟩ := cronLoop_mem sendOk _ _ _ _ hq
      subst hpm
      constructor
      · intro i hi
        simp only [cronPayload, Option.some.injEq] at hi
        subst hi
        exact lt_of_le_of_lt (h.1 (get_state_key d.entity)) hlt
      · exact extract_message_text_ne m

/-- One backfill dialog step preserves the pass invariant. -/
theorem backfillDialogStep_inv (cfg : Config) (imp : List Int × List String)
    (sendOk : Payload → Bool) (cutoff : Option Int) (limit : Option Nat)
    (st : WatcherState)
    (acc : WatcherState × Nat × Nat × List (String × Payload)) (d : Dialog)
    (h : backfillAccInv st acc) :
    backfillAccInv st (backfillDialogStep cfg imp sendOk cutoff limit acc d) := by
  by_cases h2 : isIgnored cfg d.entity.id = true
  · simpa [backfillDialogStep, h2] using h
  by_cases h3 : matchesContact imp d.entity.id d.entity.username = true
  swap
  · simpa [backfillDialogStep, h2, h3] using h
  by_cases h5 : (backfillCollect cutoff
      (stateGet acc.1 (get_state_key d.entity))
      (iterLimited limit d.messages)).isEmpty = true
  · simpa [backfillDialogStep, h2, h3, h5] using h
  simp only [backfillDialogStep, h2, h3, h5, Bool.not_true, Bool.false_eq_true,
    if_false, Bool.not_eq_true, ite_true, if_true]
  have hmain : ∀ (k : String) (p : Payload),
      (k, p) ∈ (backfillLoop sendOk
          (backfillPayload d d.entity.id d.entity.username)
          (backfillCollect cutoff (stateGet acc.1 (get_state_key d.entity))
            (iterLimited limit d.messages)).reverse
          (stateGet acc.1 (get_state_key d.entity))).2.2.map
            (fun p => (get_state_key d.entity, p)) →
      (∀ i, p.message_id = some i → stateGet st k < i) ∧ p.message ≠ "" := by
    intro k p hp
    simp only [List.mem_map] at hp
    obtain ⟨q, hq, hqe⟩ := hp
    obtain ⟨hk, hpq⟩ : k = get_state_key d.entity ∧ q = p := by
      constructor
      · exact (Prod.mk.injEq _ _ _ _ ▸ hqe).1.symm
      · exact (Prod.mk.injEq _ _ _ _ ▸ hqe).2
    subst hk
    subst hpq
    rw [backfillLoop_attempts] at hq
    simp only [List.mem_map, List.mem_reverse] at hq
    obtain ⟨m, hm, hpm⟩ := hq
    have hlt := backfillCollect_mem cutoff
      (stateGet acc.1 (get_state_key d.entity)) (iterLimited limit d.messages) m hm
    subst hpm
    constructor
    · intro i hi
      simp only [backfillPayload, Option.some.injEq] at hi
      subst hi
      exact lt_of_le_of_lt (h.1 (get_state_key d.entity)) hlt
    · exact extract_message_text_ne m
  split
  · next hup =>
    constructor
    · intro k
      rw [stateGet_stateSet]
      split
      · next hk => subst hk; exact le_trans (h.1 _) (le_of_lt hup)
      · exact h.1 k
    · intro k p hp
      simp only [List.mem_append] at hp
      rcases hp with hp | hp
      · exact h.2 k p hp
      · exact hmain k p hp
  · constructor
    · intro k; exact h.1 k
    · intro k p hp
      simp only [List.mem_append] at hp
      rcases hp with hp | hp
      · exact h.2 k p hp
      · exact hmain k p hp

/-- Folding cron dialog steps over any dialog list preserves the invariant. -/
theorem cronFold_inv (cfg : Config) (imp : List Int × List String)
    (sendOk : Payload → Bool) (st : WatcherState) :
    ∀ (dialogs : List Dialog) (acc : WatcherState × Nat × List (String × Payload)),
      cronAccInv st acc →
      cronAccInv st (dialogs.foldl (cronDialogStep cfg imp sendOk) acc) := by
  intro dialogs
  induction dialogs with
  | nil => intro acc h; simpa using h
  | cons d rest ih =>
    intro acc h
    simp only [List.foldl_cons]
    exact ih _ (cronDialogStep_inv cfg imp sendOk st acc d h)

/-- Folding backfill dialog steps over any dialog list preserves the
invariant. -/
theorem backfillFold_inv (cfg : Config) (imp : List Int × List String)
    (sendOk : Payload → Bool) (cutoff : Option Int) (limit : Option Nat)
    (st : WatcherState) :
    ∀ (dialogs : List Dialog)
      (acc : WatcherState × Nat × Nat × List (String × Payload)),
      backfillAccInv st acc →
      backfillAccInv st
        (dialogs.foldl (backfillDialogStep cfg imp sendOk cutoff limit) acc) := by
  intro dialogs
  induction dialogs with
  | nil => intro acc h; simpa using h
  | cons d rest ih =>
    intro acc h
    simp only [List.foldl_cons]
    exact ih _ (backfillDialogStep_inv cfg imp sendOk cutoff limit st acc d h)

/-- Pass-level invariant for the cron sweep: watermarks never decrease from
the loaded state, and every delivery attempt for a key carries an id above
that key's stored watermark and a non-empty message text. -/
theorem process_unread_inv (cfg : Config)
    (fetchResult : Except Unit (List RawEntry)) (st : WatcherState)
    (dialogs : List Dialog) (sendOk : Payload → Bool) :
    (∀ k, stateGet st k ≤
        stateGet (process_unread_important_messages cfg fetchResult st dialogs sendOk).state k) ∧
    ∀ k p, (k, p) ∈ (process_unread_important_messages cfg fetchResult st dialogs sendOk).attempts →
      (∀ i, p.message_id = some i → stateGet st k < i) ∧ p.message ≠ "" := by
  by_cases he : ((fetch_important_contacts fetchResult).1.isEmpty &&
      (fetch_important_contacts fetchResult).2.isEmpty) = true
  · constructor
    · intro k
      simp only [process_unread_important_messages, he, if_true, ite_true]
      exact le_refl _
    · intro k p hp
      simp only [process_unread_important_messages, he, if_true, ite_true] at hp
      simp at hp
  · have hbase : cronAccInv st (st, 0, ([] : List (String × Payload))) := by
      constructor
      · intro k; exact le_refl _
      · intro k p hp; simp at hp
    have hinv := cronFold_inv cfg (fetch_important_contacts fetchResult) sendOk st
      dialogs (st, 0, []) hbase
    constructor
    · intro k
      simp only [process_unread_important_messages, he, Bool.false_eq_true,
        if_false, ite_false]
      exact hinv.1 k
    · intro k p hp
      simp only [process_unread_important_messages, he, Bool.false_eq_true,
        if_false, ite_false] at hp
      exact hinv.2 k p hp

/-- Pass-level invariant for the backfill pass, with the same content. -/
theorem backfill_inv (cfg : Config) (now : Int)
    (fetchResult : Except Unit (List RawEntry)) (st : WatcherState)
    (dialogs : List Dialog) (sendOk : Payload → Bool) :
    (∀ k, stateGet st k ≤
        stateGet (backfill_history cfg now fetchResult st dialogs sendOk).state k) ∧
    ∀ k p, (k, p) ∈ (backfill_history cfg now fetchResult st dialogs sendOk).attempts →
      (∀ i, p.message_id = some i → stateGet st k < i) ∧ p.message ≠ "" := by
  by_cases he : ((fetch_important_contacts fetchResult).1.isEmpty &&
      (fetch_important_contacts fetchResult).2.isEmpty) = true
  · constructor
    · intro k
      simp only [backfill_history, he, if_true, ite_true]
      exact le_refl _
    · intro k p hp
      simp only [backfill_history, he, if_true, ite_true] at hp
      simp at hp
  · have hbase : backfillAccInv st (st, 0, 0, ([] : List (String × Payload))) := by
      constructor
      · intro k; exact le_refl _
      · intro k p hp; simp at hp
    have hinv := backfillFold_inv cfg (fetch_important_contacts fetchResult) sendOk
      (backfillCutoff cfg now) (backfillLimit cfg) st dialogs (st, 0, 0, []) hbase
    constructor
    · intro k
      simp only [backfill_history, he, Bool.false_eq_true, if_false, ite_false]
      exact hinv.1 k
    · intro k p hp
      simp only [backfill_history, he, Bool.false_eq_true, if_false,
        ite_false] at hp
      exact hinv.2 k p hp

/-- The cron sweep either writes nothing or writes exactly its final state. -/
theorem process_unread_saved (cfg : Config)
    (fetchResult : Except Unit (List RawEntry)) (st : WatcherState)
    (dialogs : List Dialog) (sendOk : Payload → Bool) :
    (process_unread_important_messages cfg fetchResult st dialogs sendOk).saved = none ∨
    (process_unread_important_messages cfg fetchResult st dialogs sendOk).saved =
      some (process_unread_important_messages cfg fetchResult st dialogs sendOk).state := by
  by_cases he : ((fetch_important_contacts fetchResult).1.isEmpty &&
      (fetch_important_contacts fetchResult).2.isEmpty) = true
  · left
    simp only [process_unread_important_messages, he, if_true, ite_true]
  · simp only [process_unread_important_messages, he, Bool.false_eq_true,
      if_false, ite_false]
    split
    · right; rfl
    · left; rfl

/-- The backfill pass either writes nothing or writes exactly its final
state. -/
theorem backfill_saved (cfg : Config) (now : Int)
    (fetchResult : Except Unit (List RawEntry)) (st : WatcherState)
    (dialogs : List Dialog) (sendOk : Payload → Bool) :
    (backfill_history cfg now fetchResult st dialogs sendOk).saved = none ∨
    (backfill_history cfg now fetchResult st dialogs sendOk).saved =
      some (backfill_history cfg now fetchResult st dialogs sendOk).state := by
  by_cases he : ((fetch_important_contacts fetchResult).1.isEmpty &&
      (fetch_important_contacts fetchResult).2.isEmpty) = true
  · left
    simp only [backfill_history, he, if_true, ite_true]
  · simp only [backfill_history, he, Bool.false_eq_true, if_false, ite_false]
    split
    · right; rfl
    · left; rfl

/-- C1 (counterexample): the claim that backfill reconciles a chat only if
it also passes the watch-scope filter is false.  Under cfgScoped chat 7
fails should_forward, is not ignored and is important, yet the backfill
pass reconciles it and attempts all three of its messages. -/
theorem C1_counterexample :
    should_forward cfgScoped (some exDialog.entity) = false ∧
    exBackfillScoped.attempts.length = 3 := by
  decide

/-- C1 (amended): in backfill mode a dialog is reconciled only if it passes
the ignore and importance filters; a dialog that is ignored or matches no
important contact is skipped with the accumulator unchanged.  The
watch-scope filter of the shared skeleton is not applied in backfill. -/
theorem C1_amended (cfg : Config) (imp : List Int × List String)
    (sendOk : Payload → Bool) (cutoff : Option Int) (limit : Option Nat)
    (acc : WatcherState × Nat × Nat × List (String × Payload)) (d : Dialog)
    (h : isIgnored cfg d.entity.id = true ∨
         matchesContact imp d.entity.id d.entity.username = false) :
    backfillDialogStep cfg imp sendOk cutoff limit acc d = acc := by
  rcases h with h | h
  · simp [backfillDialogStep, h]
  · by_cases hig : isIgnored cfg d.entity.id = true
    · simp [backfillDialogStep, hig]
    · simp [backfillDialogStep, hig, h]

/-- C1 witness: the amended theorem applied to a dialog whose chat id is in
the ignore set. -/
theorem C1_witness :
    backfillDialogStep cfgIgnore7 ([7], []) sendAll none (some 500)
      ([], 0, 0, []) exDialog = ([], 0, 0, []) :=
  C1_amended cfgIgnore7 ([7], []) sendAll none (some 500) ([], 0, 0, [])
    exDialog (Or.inl (by decide))

/-- C2 (counterexample): the claim that a live event is delivered only if
its chat matches a fetched important contact is false.  The live handler
never consults the important-contact list: chat 42 matches no contact of
an (empty) fetched list, yet its event is delivered. -/
theorem C2_counterexample :
    matchesContact (fetch_important_contacts (Except.ok [])) (some 42) none = false ∧
    (handler cfgAll exEvent).isSome = true := by
  decide

/-- C2 (amended): in live mode an inbound event is delivered exactly when
it is not a self-sent private message, its chat is not ignored and is in
watch scope, and the event has non-empty raw text or media; the importance
filter is absent from the live path. -/
theorem C2_amended (cfg : Config) (ev : Event) :
    (handler cfg ev).isSome =
      (!(ev.isPrivate && ev.senderIsSelf) &&
       !(isIgnored cfg (ev.chat.bind Entity.id)) &&
       should_forward cfg ev.chat &&
       !((ev.rawText.getD "" == "") && !ev.hasMedia)) := by
  by_cases h1 : (ev.isPrivate && ev.senderIsSelf) = true
  · simp [handler, h1]
  · by_cases h2 : isIgnored cfg (ev.chat.bind Entity.id) = true
    · simp [handler, h1, h2]
    · by_cases h3 : should_forward cfg ev.chat = true
      · by_cases h4 : ((ev.rawText.getD "" == "") && !ev.hasMedia) = true
        · simp [handler, h1, h2, h3, h4]
        · simp [handler, h1, h2, h3, h4]
      · simp [handler, h1, h2, h3]

/-- C3 (counterexample): the claim that a failed message is always retried
by the next pass is false.  With watermark 0 and messages 1,2,3 where
delivery of 2 fails but 3 then succeeds, the stored watermark becomes 3,
and a second pass over the same unchanged dialog state attempts nothing,
so message 2 is never retried. -/
theorem C3_counterexample :
    exPass1.attempts.map (fun kp => kp.2.message_id) = [some 1, some 2, some 3] ∧
    sendFail2 (cronPayload exDialog (some 7) none (exMsg 2)) = false ∧
    stateGet exPass1.state "User:7" = 3 ∧
    exPass2.attempts = [] := by
  decide

/-- C3 (amended): if delivery fails for message M during a per-chat pass
and M's id stays strictly above the pass's final watermark (that is, no
message with a higher id succeeded in the same chat later in the pass),
then a subsequent pass over the same unchanged message list attempts M
again. -/
theorem C3_amended (sendOk : Payload → Bool) (build : Message → Payload)
    (msgs : List Message) (lf : Nat) (M : Message)
    (hmem : M ∈ msgs) (hfail : sendOk (build M) = false)
    (hwm : (cronLoop sendOk build msgs lf).1 < M.id) :
    build M ∈ (cronLoop sendOk build msgs ((cronLoop sendOk build msgs lf).1)).2.2 := by
  have hall : ∀ m, m ∈ msgs → (cronLoop sendOk build msgs lf).1 < m.id →
      sendOk (build m) = false :=
    fun m hm hlt => cronLoop_final_fail sendOk build msgs lf m hm hlt
  rw [cronLoop_stable sendOk build msgs _ hall]
  simp only [List.mem_map, List.mem_filter]
  exact ⟨M, ⟨hmem, by simpa using hwm⟩, rfl⟩

/-- C3 witness: the amended theorem applied to a pass in which every
delivery fails, so the watermark stays 0 and the retry pass attempts
message 2 again. -/
theorem C3_witness :
    cronPayload exDialog (some 7) none (exMsg 2) ∈
      (cronLoop sendNone (cronPayload exDialog (some 7) none)
        [exMsg 1, exMsg 2, exMsg 3]
        ((cronLoop sendNone (cronPayload exDialog (some 7) none)
          [exMsg 1, exMsg 2, exMsg 3] 0).1)).2.2 :=
  C3_amended sendNone (cronPayload exDialog (some 7) none)
    [exMsg 1, exMsg 2, exMsg 3] 0 (exMsg 2) (by decide) (by decide) (by decide)

/-- C4 (confirmed): a failed delivery does not advance the watermark and
does not stop the per-chat batch: the final watermark is the fold raising
the current value to max(current, id) exactly after each success, in both
the cron and the backfill delivery loops; in the scenario with watermark 0
and messages 1,2,3 oldest-first where delivery of 2 fails and 1 and 3
succeed, all three deliveries are attempted and the final watermark is 3. -/
theorem C4_theorem :
    (∀ (sendOk : Payload → Bool) (build : Message → Payload)
        (msgs : List Message) (lf : Nat),
      (cronLoop sendOk build msgs lf).1 =
        msgs.foldl
          (fun w m => if w < m.id ∧ sendOk (build m) = true then max w m.id else w)
          lf) ∧
    (∀ (sendOk : Payload → Bool) (build : Message → Payload)
        (msgs : List Message) (lf : Nat),
      (backfillLoop sendOk build msgs lf).1 =
        msgs.foldl
          (fun w m => if sendOk (build m) = true then max w m.id else w) lf) ∧
    (cronLoop sendFail2 (cronPayload exDialog (some 7) none)
      [exMsg 1, exMsg 2, exMsg 3] 0).1 = 3 ∧
    (cronLoop sendFail2 (cronPayload exDialog (some 7) none)
      [exMsg 1, exMsg 2, exMsg 3] 0).2.2.length = 3 ∧
    (backfillLoop sendFail2 (backfillPayload exDialog (some 7) none)
      [exMsg 1, exMsg 2, exMsg 3] 0).1 = 3 := by
  refine ⟨fun s b => cronLoop_watermark s b, fun s b => backfillLoop_watermark s b,
    by decide, by decide, by decide⟩

/-- C5 (counterexample): the claim that every delivered payload carries the
extraction-policy text in every mode is false in live mode: an event with
empty raw text and a media attachment is delivered with messageText equal
to the empty string, not to the media placeholder. -/
theorem C5_counterexample :
    (handler cfgAll exEventMedia).isSome = true ∧
    (handler cfgAll exEventMedia).map Payload.message = some "" := by
  decide

/-- C5 (amended): the extraction policy never yields the empty string and
yields exactly the media placeholder for a media message with no text, and
every payload attempted by the cron sweep or the backfill pass has
non-empty messageText; the live handler instead sends the raw text
unchanged, so its payloads are exempt from the guarantee. -/
theorem C5_amended :
    (∀ m : Message, extract_message_text m ≠ "") ∧
    (∀ m : Message, pyStrip (m.rawText.getD "") = "" →
      pyStrip (m.message.getD "") = "" → m.media = true →
      extract_message_text m = "[Media message]") ∧
    (∀ (cfg : Config) (fetchResult : Except Unit (List RawEntry))
        (st : WatcherState) (dialogs : List Dialog) (sendOk : Payload → Bool)
        (k : String) (p : Payload),
      (k, p) ∈ (process_unread_important_messages cfg fetchResult st dialogs sendOk).attempts →
      p.message ≠ "") ∧
    (∀ (cfg : Config) (now : Int) (fetchResult : Except Unit (List RawEntry))
        (st : WatcherState) (dialogs : List Dialog) (sendOk : Payload → Bool)
        (k : String) (p : Payload),
      (k, p) ∈ (backfill_history cfg now fetchResult st dialogs sendOk).attempts →
      p.message ≠ "") := by
  refine ⟨extract_message_text_ne, extract_message_text_media, ?_, ?_⟩
  · intro cfg f st dl s k p hp
    exact ((process_unread_inv cfg f st dl s).2 k p hp).2
  · intro cfg now f st dl s k p hp
    exact ((backfill_inv cfg now f st dl s).2 k p hp).2

/-- C5 witness: the amended theorem applied to a media message with empty
text and to a concrete cron attempt. -/
theorem C5_witness :
    extract_message_text exMediaMsg = "[Media message]" ∧
    exPayload1.message ≠ "" :=
  ⟨C5_amended.2.1 exMediaMsg (by decide) (by decide) (by decide),
   C5_amended.2.2.1 cfgAll exFetch [] [exDialog] sendAll "User:7" exPayload1
     (by decide)⟩

/-- C6 (confirmed): reconciliation never attempts delivery of a message
whose id is at or below the stored watermark of its chat: every attempt a
cron sweep or a backfill pass makes carries a message id strictly greater
than the watermark stored for that chat's key when the pass loaded its
state (so an id exactly equal to the watermark is never redelivered). -/
theorem C6_theorem :
    (∀ (cfg : Config) (fetchResult : Except Unit (List RawEntry))
        (st : WatcherState) (dialogs : List Dialog) (sendOk : Payload → Bool)
        (k : String) (p : Payload) (i : Nat),
      (k, p) ∈ (process_unread_important_messages cfg fetchResult st dialogs sendOk).attempts →
      p.message_id = some i → stateGet st k < i) ∧
    (∀ (cfg : Config) (now : Int) (fetchResult : Except Unit (List RawEntry))
        (st : WatcherState) (dialogs : List Dialog) (sendOk : Payload → Bool)
        (k : String) (p : Payload) (i : Nat),
      (k, p) ∈ (backfill_history cfg now fetchResult st dialogs sendOk).attempts →
      p.message_id = some i → stateGet st k < i) := by
  constructor
  · intro cfg f st dl s k p i hp hi
    exact ((process_unread_inv cfg f st dl s).2 k p hp).1 i hi
  · intro cfg now f st dl s k p i hp hi
    exact ((backfill_inv cfg now f st dl s).2 k p hp).1 i hi

/-- C6 witness: the theorem applied to a concrete cron attempt. -/
theorem C6_witness : stateGet [] "User:7" < 1 :=
  C6_theorem.1 cfgAll exFetch [] [exDialog] sendAll "User:7" exPayload1 1
    (by decide) (by decide)

/-- C7 (confirmed): for every chat key the watermark is non-decreasing
across a pass: both passes only ever raise the per-key value from the
loaded state, and what save_state persists, when it persists at all, is
exactly that final raised state, so the sequence of values written over
successive passes is non-decreasing. -/
theorem C7_theorem :
    (∀ (cfg : Config) (fetchResult : Except Unit (List RawEntry))
        (st : WatcherState) (dialogs : List Dialog) (sendOk : Payload → Bool),
      (∀ k, stateGet st k ≤
        stateGet (process_unread_important_messages cfg fetchResult st dialogs sendOk).state k) ∧
      ((process_unread_important_messages cfg fetchResult st dialogs sendOk).saved = none ∨
       (process_unread_important_messages cfg fetchResult st dialogs sendOk).saved =
         some (process_unread_important_messages cfg fetchResult st dialogs sendOk).state)) ∧
    (∀ (cfg : Config) (now : Int) (fetchResult : Except Unit (List RawEntry))
        (st : WatcherState) (dialogs : List Dialog) (sendOk : Payload → Bool),
      (∀ k, stateGet st k ≤
        stateGet (backfill_history cfg now fetchResult st dialogs sendOk).state k) ∧
      ((backfill_history cfg now fetchResult st dialogs sendOk).saved = none ∨
       (backfill_history cfg now fetchResult st dialogs sendOk).saved =
         some (backfill_history cfg now fetchResult st dialogs sendOk).state)) := by
  constructor
  · intro cfg f st dl s
    exact ⟨(process_unread_inv cfg f st dl s).1, process_unread_saved cfg f st dl s⟩
  · intro cfg now f st dl s
    exact ⟨(backfill_inv cfg now f st dl s).1, backfill_saved cfg now f st dl s⟩

/-- C8 (confirmed): the backfill walk stops early rather than skipping:
the collected messages are an initial segment of the walked list, every
collected id is strictly above the watermark, no collected dated message is
older than the cutoff; and in the three-day-cutoff scenario with ids/dates
90/"today", 89/"today", 88/"4 days ago" newest-first the walk stops before
88, collects 90 and 89, and delivers them oldest-first as 89 then 90. -/
theorem C8_theorem :
    (∀ (cutoff : Option Int) (lf : Nat) (msgs : List Message),
      backfillCollect cutoff lf msgs =
        msgs.take (backfillCollect cutoff lf msgs).length) ∧
    (∀ (cutoff : Option Int) (lf : Nat) (msgs : List Message) (m : Message),
      m ∈ backfillCollect cutoff lf msgs → lf < m.id) ∧
    (∀ (c : Int) (lf : Nat) (msgs : List Message) (m : Message) (d : Int),
      m ∈ backfillCollect (some c) lf msgs → m.date = some d → c ≤ d) ∧
    exBackfillCut.attempts.map (fun kp => kp.2.message_id) = [some 89, some 90] ∧
    stateGet exBackfillCut.state "User:7" = 90 := by
  refine ⟨fun c lf m => backfillCollect_take c lf m,
    fun c lf m mm => backfillCollect_mem c lf m mm,
    fun c lf ms m d => backfillCollect_cutoff c lf ms m d,
    by decide, by decide⟩

/-- C8 witness: the theorem's membership conjuncts applied to a concrete
collected message. -/
theorem C8_witness :
    (0 : Nat) < (exMsgAt 90 1000000).id ∧ ((740800 : Int) ≤ 1000000) :=
  ⟨C8_theorem.2.1 (some 740800) 0 [exMsgAt 90 1000000] (exMsgAt 90 1000000)
     (by decide),
   C8_theorem.2.2.1 740800 0 [exMsgAt 90 1000000] (exMsgAt 90 1000000) 1000000
     (by decide) (by decide)⟩

/-- C9 (confirmed): within one pass, deliveries for one chat are attempted
in strictly increasing message-id order.  The cron sweep processes exactly
the reversed take of max(unread_count, 1) fetched messages, and the
backfill pass delivers the reversed collected walk; in both passes, when
the underlying message list is newest-first (strictly decreasing ids) the
attempted ids for the chat are strictly increasing, and each per-dialog
step emits exactly the attempts of its delivery loop. -/
theorem C9_theorem :
    (∀ (sendOk : Payload → Bool) (d : Dialog) (lf : Nat),
      d.messages.Pairwise (fun a b => b.id < a.id) →
      ((cronLoop sendOk (cronPayload d d.entity.id d.entity.username)
          ((d.messages.take (max d.unreadCount 1)).reverse) lf).2.2.map
          (fun p => p.message_id.getD 0)).Pairwise (· < ·)) ∧
    (∀ (cfg : Config) (imp : List Int × List String) (sendOk : Payload → Bool)
        (acc : WatcherState × Nat × List (String × Payload)) (d : Dialog),
      d.unreadCount ≠ 0 →
      isIgnored cfg d.entity.id = false →
      matchesContact imp d.entity.id d.entity.username = true →
      should_forward cfg (some d.entity) = true →
      (cronDialogStep cfg imp sendOk acc d).2.2 =
        acc.2.2 ++ ((cronLoop sendOk (cronPayload d d.entity.id d.entity.username)
            ((d.messages.take (max d.unreadCount 1)).reverse)
            (stateGet acc.1 (get_state_key d.entity))).2.2.map
          (fun p => (get_state_key d.entity, p)))) ∧
    (∀ (sendOk : Payload → Bool) (d : Dialog) (lf : Nat) (cutoff : Option Int)
        (limit : Option Nat),
      d.messages.Pairwise (fun a b => b.id < a.id) →
      ((backfillLoop sendOk (backfillPayload d d.entity.id d.entity.username)
          (backfillCollect cutoff lf (iterLimited limit d.messages)).reverse
          lf).2.2.map
          (fun p => p.message_id.getD 0)).Pairwise (· < ·)) ∧
    (∀ (cfg : Config) (imp : List Int × List String) (sendOk : Payload → Bool)
        (cutoff : Option Int) (limit : Option Nat)
        (acc : WatcherState × Nat × Nat × List (String × Payload)) (d : Dialog),
      isIgnored cfg d.entity.id = false →
      matchesContact imp d.entity.id d.entity.username = true →
      (backfillDialogStep cfg imp sendOk cutoff limit acc d).2.2.2 =
        acc.2.2.2 ++
          ((backfillLoop sendOk (backfillPayload d d.entity.id d.entity.username)
              (backfillCollect cutoff (stateGet acc.1 (get_state_key d.entity))
                (iterLimited limit d.messages)).reverse
              (stateGet acc.1 (get_state_key d.entity))).2.2.map
            (fun p => (get_state_key d.entity, p)))) := by
  refine ⟨?_, ?_, ?_, ?_⟩
  · intro sendOk d lf hdesc
    have htake : (d.messages.take (max d.unreadCount 1)).Pairwise
        (fun a b => b.id < a.id) :=
      hdesc.sublist (List.take_sublist _ _)
    have hrev : ((d.messages.take (max d.unreadCount 1)).reverse).Pairwise
        (fun a b => a.id < b.id) := by
      rw [List.pairwise_reverse]
      exact htake
    have hsub := cronLoop_sublist sendOk
      (cronPayload d d.entity.id d.entity.username)
      ((d.messages.take (max d.unreadCount 1)).reverse) lf
    have hmap : (((d.messages.take (max d.unreadCount 1)).reverse).map
        (cronPayload d d.entity.id d.entity.username)).Pairwise
        (fun p q => p.message_id.getD 0 < q.message_id.getD 0) := by
      rw [List.pairwise_map]
      simpa [cronPayload] using hrev
    have hatt := hmap.sublist hsub
    rw [List.pairwise_map]
    exact hatt
  · intro cfg imp sendOk acc d h1 h2 h3 h4
    simp only [cronDialogStep, h1, h2, h3, h4, Bool.not_true,
      Bool.false_eq_true, if_false, ite_false, ite_true, if_true]
  · intro sendOk d lf cutoff limit hdesc
    have hcol : List.Sublist
        (backfillCollect cutoff lf (iterLimited limit d.messages)) d.messages :=
      (backfillCollect_sublist cutoff lf (iterLimited limit d.messages)).trans
        (iterLimited_sublist limit d.messages)
    have hdc : (backfillCollect cutoff lf (iterLimited limit d.messages)).Pairwise
        (fun a b => b.id < a.id) := hdesc.sublist hcol
    have hrev : ((backfillCollect cutoff lf (iterLimited limit d.messages)).reverse).Pairwise
        (fun a b => a.id < b.id) := by
      rw [List.pairwise_reverse]
      exact hdc
    rw [backfillLoop_attempts, List.map_map, List.pairwise_map]
    simpa [backfillPayload] using hrev
  · intro cfg imp sendOk cutoff limit acc d h2 h3
    by_cases h5 : (backfillCollect cutoff (stateGet acc.1 (get_state_key d.entity))
        (iterLimited limit d.messages)).isEmpty = true
    · have hnil : backfillCollect cutoff (stateGet acc.1 (get_state_key d.entity))
          (iterLimited limit d.messages) = [] := by
        simpa [List.isEmpty_iff] using h5
      simp [backfillDialogStep, h2, h3, h5, hnil, backfillLoop]
    · simp only [backfillDialogStep, h2, h3, h5, Bool.not_true,
        Bool.false_eq_true, if_false, ite_false, Bool.not_eq_true, ite_true,
        if_true]
      split <;> rfl

/-- C9 witness: all four conjuncts applied to the concrete dialog whose
messages are newest-first. -/
theorem C9_witness :
    ((cronLoop sendAll (cronPayload exDialog exDialog.entity.id exDialog.entity.username)
        ((exDialog.messages.take (max exDialog.unreadCount 1)).reverse) 0).2.2.map
        (fun p => p.message_id.getD 0)).Pairwise (· < ·) ∧
    (cronDialogStep cfgAll ([7], []) sendAll
        (([] : WatcherState), 0, ([] : List (String × Payload))) exDialog).2.2 =
      ([] : List (String × Payload)) ++
        ((cronLoop sendAll (cronPayload exDialog exDialog.entity.id exDialog.entity.username)
            ((exDialog.messages.take (max exDialog.unreadCount 1)).reverse)
            (stateGet ([] : WatcherState) (get_state_key exDialog.entity))).2.2.map
          (fun p => (get_state_key exDialog.entity, p))) ∧
    ((backfillLoop sendAll (backfillPayload exDialog exDialog.entity.id exDialog.entity.username)
        (backfillCollect none 0 (iterLimited (some 500) exDialog.messages)).reverse
        0).2.2.map
        (fun p => p.message_id.getD 0)).Pairwise (· < ·) ∧
    (backfillDialogStep cfgAll ([7], []) sendAll none (some 500)
        (([] : WatcherState), 0, 0, ([] : List (String × Payload))) exDialog).2.2.2 =
      ([] : List (String × Payload)) ++
        ((backfillLoop sendAll (backfillPayload exDialog exDialog.entity.id exDialog.entity.username)
            (backfillCollect none (stateGet ([] : WatcherState) (get_state_key exDialog.entity))
              (iterLimited (some 500) exDialog.messages)).reverse
            (stateGet ([] : WatcherState) (get_state_key exDialog.entity))).2.2.map
          (fun p => (get_state_key exDialog.entity, p))) :=
  ⟨C9_theorem.1 sendAll exDialog 0 (by decide),
   C9_theorem.2.1 cfgAll ([7], []) sendAll ([], 0, []) exDialog (by decide)
     (by decide) (by decide) (by decide),
   C9_theorem.2.2.1 sendAll exDialog 0 none (some 500) (by decide),
   C9_theorem.2.2.2 cfgAll ([7], []) sendAll none (some 500) ([], 0, 0, [])
     exDialog (by decide) (by decide)⟩

/-- C10 (counterexample): the claim that any exception while fetching the
important-contacts list short-circuits the pass with zero work is false.
An exception raised inside the accumulation loop after an entry was
already added (here a non-object second entry) makes the fetch return the
partial, non-empty sets, and the cron pass then does real work: it
delivers three messages and writes state. -/
theorem C10_counterexample :
    fetch_important_contacts exFetchPartial = ([7], []) ∧
    (process_unread_important_messages cfgAll exFetchPartial [] [exDialog] sendAll).sent = 3 ∧
    (process_unread_important_messages cfgAll exFetchPartial [] [exDialog] sendAll).saved ≠ none := by
  decide

/-- C10 (amended): when fetching the important-contact list fails with an
exception raised before any entry is accumulated (the request, its HTTP
status check, or JSON decoding), the pass treats it as "no important
contacts" and short-circuits with zero work: the state is untouched, no
delivery is attempted, nothing is written, and the returned count is 0,
for both the cron sweep and backfill. -/
theorem C10_theorem :
    (∀ (cfg : Config) (st : WatcherState) (dialogs : List Dialog)
        (sendOk : Payload → Bool),
      process_unread_important_messages cfg (Except.error ()) st dialogs sendOk =
        { state := st, sent := 0, attempts := [], saved := none }) ∧
    (∀ (cfg : Config) (now : Int) (st : WatcherState) (dialogs : List Dialog)
        (sendOk : Payload → Bool),
      backfill_history cfg now (Except.error ()) st dialogs sendOk =
        { state := st, total := 0, updatedKeys := 0, attempts := [], saved := none }) := by
  constructor
  · intro cfg st dl s; rfl
  · intro cfg now st dl s; rfl
